import Mathlib

/-!
Shallow embedding of the replicated SQL access layer of
`server/channels/store/sqlstore/store.go` (package `sqlstore`), and proofs
about its routing, shutdown, health-monitor, lag-probe and version-gate
logic.

Machine integers: the Go rotation counters are `int64`; the properties
proved here do not depend on wrap-around, so they are modelled as `Nat`.
Stateful Go methods become explicit state passing over the `SqlStore`
structure; the concurrent pieces (shutdown ordering, the monitor loop) are
modelled as event traces / step functions in program order.
-/

namespace Sqlstore

/-- Modelled from the spec: the `sqlxDBWrapper` connection handle (defined in
`sqlx_store.go`, outside the excerpt).  Per the spec, a `ConnectionHandle`
is an underlying connection capability plus an online boolean; the offline
placeholder `&sqlxDBWrapper\x7bisOnline: &atomic.Bool\x7b\x7d\x7d` has the
flag unset.  `id` stands for the identity of the underlying connection. -/
structure Handle where
  id : Nat
  online : Bool
deriving DecidableEq, Repr

/-- The offline placeholder wrapper stored by `initConnection` when a
replica connection attempt fails (`&sqlxDBWrapper\x7bisOnline: &atomic.Bool\x7b\x7d\x7d`). -/
def offlineHandle : Handle := { id := 0, online := false }

/-- Modelled from the spec: `newSqlxDBWrapper` (outside the excerpt) wraps a
freshly dialled connection; per the spec an installed handle produced from a
successful reconnect-and-ping is published online. -/
def newSqlxDBWrapper (h : Handle) : Handle := { id := h.id, online := true }

/-- The connection a routing call returns: the master handle, or the current
handle loaded from read-replica slot `i`, or from search-replica slot `i`. -/
inductive Conn where
  | master : Conn
  | readReplica (i : Nat) : Conn
  | searchReplica (i : Nat) : Conn
deriving DecidableEq, Repr

/-- One entry of `model.ReplicaLagSettings`: a data source and the two lag
query texts, each of which may be nil (`Option`). -/
structure ReplicaLagSetting where
  dataSource : Option String
  queryAbsoluteLag : Option String
  queryTimeLag : Option String
deriving DecidableEq, Repr

/-- A dedicated lag-probe connection (`*sql.DB`): `run q` is the outcome of
`QueryRow(q).Scan(&node, &diff)` — an error, or a (node, lag) row.  Lag
values are integers here; the claims do not depend on float arithmetic. -/
structure LagHandle where
  run : String → Except String (String × Int)

/-- The fields of `model.SqlSettings` this layer reads. -/
structure SqlSettings where
  dataSourceReplicas : List String
  dataSourceSearchReplicas : List String
  replicaLagSettings : List ReplicaLagSetting

/-- The `SqlStore` state: rotation counters, the slot arrays (the current
wrapper held by each `atomic.Pointer`), the lag handles, the two routing
flags.  `license` models the `*model.License` field: `none` is nil. -/
structure SqlStore where
  rrCounter : Nat
  srCounter : Nat
  settings : SqlSettings
  replicaXs : List Handle
  searchReplicaXs : List Handle
  replicaLagHandles : List LagHandle
  lockedToMaster : Bool
  license : Option Unit

/-- `hasLicense`: whether `ss.license != nil` (under the license mutex). -/
def hasLicense (st : SqlStore) : Bool := st.license.isSome

/-- The probe loop shared by `GetReplica` and `GetSearchReplicaX`:
`for i := 0; i < len(slots); i++` — each iteration increments the shared
rotation counter (`atomic.AddInt64(&counter, 1)` returns the new value),
takes it mod the slot count, and returns that slot's index together with
the counter value if its current handle is online.  `fuel` is the number
of remaining iterations; the caller passes `slots.length`. -/
def probeLoop (slots : List Handle) (counter : Nat) : Nat → Option (Nat × Nat)
  | 0 => none
  | fuel + 1 =>
    let c := counter + 1
    let idx := c % slots.length
    if (slots.getD idx offlineHandle).online then some (idx, c)
    else probeLoop slots c fuel

/-- `GetReplica` (store.go:451-465): master when the configured replica list
is empty, or locked to master, or no license; otherwise round-robin probe of
up to `len(ReplicaXs)` slots, falling back to master when none is online. -/
def GetReplica (st : SqlStore) : Conn × SqlStore :=
  if st.settings.dataSourceReplicas.isEmpty || st.lockedToMaster || !(hasLicense st) then
    (Conn.master, st)
  else
    match probeLoop st.replicaXs st.rrCounter st.replicaXs.length with
    | some (idx, c) => (Conn.readReplica idx, { st with rrCounter := c })
    | none => (Conn.master, { st with rrCounter := st.rrCounter + st.replicaXs.length })

/-- `GetSearchReplicaX` (store.go:431-449): master when unlicensed; delegate
to `GetReplica` when no search replicas are configured; otherwise round-robin
probe of the search slots, delegating to `GetReplica` when all are down. -/
def GetSearchReplicaX (st : SqlStore) : Conn × SqlStore :=
  if !(hasLicense st) then
    (Conn.master, st)
  else if st.settings.dataSourceSearchReplicas.isEmpty then
    GetReplica st
  else
    match probeLoop st.searchReplicaXs st.srCounter st.searchReplicaXs.length with
    | some (idx, c) => (Conn.searchReplica idx, { st with srCounter := c })
    | none => GetReplica { st with srCounter := st.srCounter + st.searchReplicaXs.length }

/-! ### Properties of the probe loop -/

/-- A successful probe returns an online slot at `counter mod slotCount`,
reached within `fuel` counter increments. -/
theorem probeLoop_some (slots : List Handle) :
    ∀ fuel counter idx c, probeLoop slots counter fuel = some (idx, c) →
      (slots.getD idx offlineHandle).online = true ∧ idx = c % slots.length ∧
      counter < c ∧ c ≤ counter + fuel := by
  intro fuel
  induction fuel with
  | zero => intro counter idx c h; simp [probeLoop] at h
  | succ n ih =>
    intro counter idx c h
    simp only [probeLoop] at h
    by_cases hon : (slots.getD ((counter + 1) % slots.length) offlineHandle).online = true
    · rw [if_pos hon] at h
      obtain ⟨h1, h2⟩ := Prod.mk.injEq .. ▸ Option.some.injEq .. ▸ h
      subst h1; subst h2
      exact ⟨hon, rfl, Nat.lt_succ_self _, by omega⟩
    · rw [if_neg hon] at h
      obtain ⟨h1, h2, h3, h4⟩ := ih (counter + 1) idx c h
      exact ⟨h1, h2, by omega, by omega⟩

/-- A failed probe run means every one of the `fuel` inspected slots —
indices `(counter + k) mod slotCount` for `1 ≤ k ≤ fuel` — was offline. -/
theorem probeLoop_none (slots : List Handle) :
    ∀ fuel counter, probeLoop slots counter fuel = none →
      ∀ k, 1 ≤ k → k ≤ fuel →
        (slots.getD ((counter + k) % slots.length) offlineHandle).online = false := by
  intro fuel
  induction fuel with
  | zero => intro counter _ k hk1 hk2; omega
  | succ n ih =>
    intro counter h k hk1 hk2
    simp only [probeLoop] at h
    by_cases hon : (slots.getD ((counter + 1) % slots.length) offlineHandle).online = true
    · rw [if_pos hon] at h; exact absurd h (by simp)
    · rw [if_neg hon] at h
      rcases Nat.eq_or_lt_of_le hk1 with heq | hgt
      · rw [← heq]; exact Bool.not_eq_true _ ▸ hon
      · have := ih (counter + 1) h (k - 1) (by omega) (by omega)
        have harith : counter + 1 + (k - 1) = counter + k := by omega
        rwa [harith] at this

/-- Coverage: `fuel = n` consecutive counter values hit every residue mod
`n`, so each slot index is inspected by some iteration `1 ≤ k ≤ n`. -/
theorem probe_coverage (n counter i : Nat) (hn : 0 < n) (hi : i < n) :
    ∃ k, 1 ≤ k ∧ k ≤ n ∧ (counter + k) % n = i := by
  obtain ⟨q, r, hr, hqr⟩ : ∃ q r, r < n ∧ counter = n * q + r :=
    ⟨counter / n, counter % n, Nat.mod_lt _ hn, (Nat.div_add_mod counter n).symm⟩
  by_cases hcase : r < i
  · refine ⟨i - r, by omega, by omega, ?_⟩
    have : counter + (i - r) = n * q + i := by omega
    rw [this, Nat.mul_add_mod]
    exact Nat.mod_eq_of_lt hi
  · refine ⟨n - r + i, by omega, by omega, ?_⟩
    have hm : n * (q + 1) = n * q + n := by ring
    have : counter + (n - r + i) = n * (q + 1) + i := by omega
    rw [this, Nat.mul_add_mod]
    exact Nat.mod_eq_of_lt hi

/-- If some slot is online, the probe loop over all `slots.length`
iterations does not fail. -/
theorem probeLoop_finds_online (slots : List Handle) (counter : Nat)
    (h : ∃ i, i < slots.length ∧ (slots.getD i offlineHandle).online = true) :
    probeLoop slots counter slots.length ≠ none := by
  obtain ⟨i, hi, hon⟩ := h
  intro hnone
  obtain ⟨k, hk1, hk2, hk3⟩ := probe_coverage slots.length counter i (by omega) hi
  have := probeLoop_none slots slots.length counter hnone k hk1 hk2
  rw [hk3] at this
  rw [hon] at this
  exact Bool.true_eq_false ▸ this

/-! ### Startup: `initConnection` (store.go:282-341) and `New` (store.go:161-268) -/

/-- Environment of connection-dial outcomes: `dialReplica i` is the result of
`sqlUtils.SetupConnection` for read-replica `i` (`none` = error), and
similarly for search replicas and lag-probe targets. -/
structure DialOutcomes where
  dialReplica : Nat → Option Handle
  dialSearchReplica : Nat → Option Handle
  dialLag : Nat → Option LagHandle

/-- The replica / search-replica slot arrays built by `initConnection`
(store.go:296-324): one slot per configured data source; a failed dial
installs the offline placeholder, a successful one is stored via `setDB`
(wrapped, online). -/
def initReplicaSlots (sources : List String) (dial : Nat → Option Handle) : List Handle :=
  (List.range sources.length).map fun i =>
    match dial i with
    | none => offlineHandle
    | some h => newSqlxDBWrapper h

/-- The lag-handle construction loop of `initConnection` (store.go:326-339),
iterating over `ReplicaLagSettings` with index `i`: a nil `DataSource` is
skipped, a failed dial is skipped, a successful dial is APPENDED — so the
resulting list can be shorter than `ReplicaLagSettings`. -/
def initLagHandlesFrom (dial : Nat → Option LagHandle) :
    List ReplicaLagSetting → Nat → List LagHandle
  | [], _ => []
  | item :: rest, i =>
    match item.dataSource with
    | none => initLagHandlesFrom dial rest (i + 1)
    | some _ =>
      match dial i with
      | none => initLagHandlesFrom dial rest (i + 1)
      | some h => h :: initLagHandlesFrom dial rest (i + 1)

/-- `initConnection`'s effect on the routing state (the master dial and
metric registration carry no routing state).  Counters, flags and the
license field are untouched. -/
def initConnection (st : SqlStore) (dials : DialOutcomes) : SqlStore :=
  { st with
    replicaXs := initReplicaSlots st.settings.dataSourceReplicas dials.dialReplica
    searchReplicaXs :=
      initReplicaSlots st.settings.dataSourceSearchReplicas dials.dialSearchReplica
    replicaLagHandles := initLagHandlesFrom dials.dialLag st.settings.replicaLagSettings 0 }

/-- The store literal `New` builds (store.go:162-170): counters zero, the
`license` and `lockedToMaster` fields are omitted in the Go literal and so
are nil / false. -/
def newStore (settings : SqlSettings) : SqlStore :=
  { rrCounter := 0
    srCounter := 0
    settings := settings
    replicaXs := []
    searchReplicaXs := []
    replicaLagHandles := []
    lockedToMaster := false
    license := none }

/-- The connection `GetDbVersion` (store.go:396-415) issues its
`SHOW server_version_num` query on: the query goes through
`ss.GetReplica().Get(...)` (store.go:409). -/
def GetDbVersionConn (st : SqlStore) : Conn := (GetReplica st).1

/-! ### Shutdown: `Close` (store.go:655-677) -/

/-- The observable events of `Close`, in program order.  `monitorExited`
stands for `ss.wgMonitor.Wait()` returning: by `sync.WaitGroup` semantics
this happens only after the monitor goroutine has run its deferred
`wgMonitor.Done()`, i.e. after it has exited its loop (store.go:469-472). -/
inductive CloseEvent where
  | closeMaster : CloseEvent
  | signalMonitorStop : CloseEvent
  | monitorExited : CloseEvent
  | closeReadReplica (i : Nat) : CloseEvent
  | closeSearchReplica (i : Nat) : CloseEvent
  | closeLagHandle (i : Nat) : CloseEvent
deriving DecidableEq, Repr

/-- Whether an event closes a replica, search-replica or lag-probe handle. -/
def isHandleClose : CloseEvent → Bool
  | .closeReadReplica _ => true
  | .closeSearchReplica _ => true
  | .closeLagHandle _ => true
  | _ => false

/-- Indices of the slots whose current handle is online (`Close` only calls
`Close()` on online replica wrappers, store.go:662-672). -/
def onlineIndices (slots : List Handle) : List Nat :=
  (List.range slots.length).filter fun i => (slots.getD i offlineHandle).online

/-- The event trace of `Close` (store.go:655-677) in program order:
`ss.masterX.Close()`; `close(ss.quitMonitor)`; `ss.wgMonitor.Wait()`;
then the online read replicas, the online search replicas, and every
lag-probe handle are closed. -/
def closeTrace (st : SqlStore) : List CloseEvent :=
  [CloseEvent.closeMaster, CloseEvent.signalMonitorStop, CloseEvent.monitorExited]
  ++ ((onlineIndices st.replicaXs).map CloseEvent.closeReadReplica
    ++ ((onlineIndices st.searchReplicaXs).map CloseEvent.closeSearchReplica
      ++ (List.range st.replicaLagHandles.length).map CloseEvent.closeLagHandle))

/-! ### The health monitor: `monitorReplicas` (store.go:467-502) and
`setDB` (store.go:504-511) -/

/-- `setDB`: store a fresh wrapper around the dialled handle into the slot
and, when metrics are enabled, register its collector.  Returns the stored
wrapper and whether `RegisterDBCollector` was called. -/
def setDB (handle : Handle) (metricsEnabled : Bool) : Handle × Bool :=
  (newSqlxDBWrapper handle, metricsEnabled)

/-- What one tick does to one slot. -/
structure TickOutcome where
  slot : Handle
  attempted : Bool
  registered : Bool
deriving DecidableEq, Repr

/-- The `setupReplica` closure of `monitorReplicas` (store.go:478-492)
applied to one slot: an online slot returns immediately; an offline slot
gets exactly one `SetupConnection` call (attempt count 1, hence one ping);
on error the slot is left as it was, on success `setDB` publishes the new
wrapper.  `dial` is the outcome of that single `SetupConnection` call. -/
def setupReplica (metricsEnabled : Bool) (slot : Handle) (dial : Option Handle) :
    TickOutcome :=
  if slot.online then { slot := slot, attempted := false, registered := false }
  else
    match dial with
    | none => { slot := slot, attempted := true, registered := false }
    | some h =>
      let s := setDB h metricsEnabled
      { slot := s.1, attempted := true, registered := s.2 }

/-- One tick over a whole slot array (the `for i, replica := range` loops,
store.go:493-499): every slot is processed, each independently of the
others' outcomes. -/
def monitorTickSlots (metricsEnabled : Bool) (slots : List Handle)
    (dial : Nat → Option Handle) : List Handle :=
  slots.mapIdx fun i s => (setupReplica metricsEnabled s (dial i)).slot

/-- One `t.C` tick of `monitorReplicas`: both the read and the search slot
arrays are processed. -/
def monitorTick (metricsEnabled : Bool) (dials : DialOutcomes) (st : SqlStore) :
    SqlStore :=
  { st with
    replicaXs := monitorTickSlots metricsEnabled st.replicaXs dials.dialReplica
    searchReplicaXs :=
      monitorTickSlots metricsEnabled st.searchReplicaXs dials.dialSearchReplica }

/-- What the monitor's `select` observes: the `quitMonitor` channel closing,
or a timer tick (with that tick's dial outcomes). -/
inductive MonitorSignal where
  | quit : MonitorSignal
  | tick (metricsEnabled : Bool) (dials : DialOutcomes) : MonitorSignal

/-- One iteration of the `monitorReplicas` loop body (store.go:473-501):
`quit` returns (loop ends), a tick processes every slot and continues.
The `Bool` is whether the loop keeps running. -/
def monitorStep (st : SqlStore) : MonitorSignal → SqlStore × Bool
  | .quit => (st, false)
  | .tick me dials => (monitorTick me dials st, true)

/-! ### Lag probes: `ReplicaLagAbs` (store.go:528-543) and `ReplicaLagTime`
(store.go:547-562) -/

/-- How a lag-probe pass over the targets ends. -/
inductive LagErr where
  | queryErr (i : Nat) (e : String) : LagErr
  | outOfRange (i : Nat) : LagErr
deriving DecidableEq, Repr

/-- The common loop body of `ReplicaLagAbs` and `ReplicaLagTime` (the two Go
functions are line-for-line identical except for which query field they
read; `queryOf` selects that field).  For target `i` of
`ReplicaLagSettings`, a nil or empty query is skipped (`continue`);
otherwise the code indexes `ss.replicaLagHandles[i]` — `outOfRange i` when
`i` is out of bounds (a Go runtime panic) — and runs the query; a query
error is returned at once (`return err`), ending the loop.  Returns the
indices whose query was run, and how the pass ended (`none` = ran to
completion). -/
def replicaLagLoop (queryOf : ReplicaLagSetting → Option String)
    (handles : List LagHandle) :
    List ReplicaLagSetting → Nat → List Nat × Option LagErr
  | [], _ => ([], none)
  | item :: rest, i =>
    match queryOf item with
    | none => replicaLagLoop queryOf handles rest (i + 1)
    | some q =>
      if q = "" then replicaLagLoop queryOf handles rest (i + 1)
      else
        match handles.get? i with
        | none => ([], some (LagErr.outOfRange i))
        | some h =>
          match h.run q with
          | .error e => ([i], some (LagErr.queryErr i e))
          | .ok _ =>
            let r := replicaLagLoop queryOf handles rest (i + 1)
            (i :: r.1, r.2)

/-- `ReplicaLagAbs` over the store state. -/
def ReplicaLagAbs (st : SqlStore) : List Nat × Option LagErr :=
  replicaLagLoop ReplicaLagSetting.queryAbsoluteLag st.replicaLagHandles
    st.settings.replicaLagSettings 0

/-- `ReplicaLagTime` over the store state. -/
def ReplicaLagTime (st : SqlStore) : List Nat × Option LagErr :=
  replicaLagLoop ReplicaLagSetting.queryTimeLag st.replicaLagHandles
    st.settings.replicaLagSettings 0

/-! ### Version gate: `ensureMinimumDBVersion` (store.go:967-979) and
`versionString` (store.go:985-989) -/

/-- `model.DatabaseDriverPostgres`. -/
def DatabaseDriverPostgres : String := "postgres"

/-- `minimumRequiredPostgresVersion` (store.go:52). -/
def minimumRequiredPostgresVersion : Int := 130000

/-- `versionString`: `minor := v % 10000; major := v / 10000` rendered as
`major.minor`.  Go integer division and remainder truncate toward zero,
hence `Int.tdiv` / `Int.tmod`. -/
def versionString (v : Int) : String :=
  toString (v.tdiv 10000) ++ "." ++ toString (v.tmod 10000)

/-- The value of a decimal digit character, `none` for any other rune. -/
def digitVal (c : Char) : Option Nat :=
  if '0' ≤ c ∧ c ≤ '9' then some (c.toNat - '0'.toNat) else none

/-- Accumulate a decimal number over a run of digit characters. -/
def parseDigitsAux : List Char → Nat → Option Nat
  | [], acc => some acc
  | c :: rest, acc =>
    match digitVal c with
    | none => none
    | some d => parseDigitsAux rest (acc * 10 + d)

/-- A non-empty all-digit run parsed as a number. -/
def parseDigits : List Char → Option Nat
  | [] => none
  | cs => parseDigitsAux cs 0

/-- `strconv.Atoi`: an optional sign followed by at least one decimal
digit; anything else is an error (`none`).  (Go additionally range-checks
against int64; overflow is immaterial to the version gate.) -/
def atoi (s : String) : Option Int :=
  match s.data with
  | '+' :: rest => (parseDigits rest).map fun n => (n : Int)
  | '-' :: rest => (parseDigits rest).map fun n => -(n : Int)
  | cs => (parseDigits cs).map fun n => (n : Int)

/-- `ensureMinimumDBVersion`: for the postgres driver, parse the reported
version with `strconv.Atoi` and compare against the minimum; any other
driver falls out of the switch and succeeds. -/
def ensureMinimumDBVersion (driverName : String) (ver : String) :
    Bool × Option String :=
  if driverName = DatabaseDriverPostgres then
    match atoi ver with
    | none => (false, some "cannot parse DB version")
    | some intVer =>
      if intVer < minimumRequiredPostgresVersion then
        (false, some ("minimum Postgres version requirements not met. Found: " ++
          versionString intVer ++ ", Wanted: " ++
          versionString minimumRequiredPostgresVersion))
      else (true, none)
  else (true, none)

/-- `sub` occurs as a contiguous substring of `s`. -/
def SubstrOf (sub s : String) : Prop :=
  ∃ a b : List Char, s.data = a ++ sub.data ++ b

/-! ### `IsDuplicate` (store.go:954-963) -/

/-- A Go error value as `IsDuplicate` inspects it: `causePqCode` is the
SQLSTATE code of the root cause (`errors.Cause(err)`) when that root cause
is a `*pq.Error` (`errors.As` succeeds), and `none` otherwise. -/
structure GoError where
  causePqCode : Option String
deriving DecidableEq, Repr

/-- `PGDupTableErrorCode` (store.go:42). -/
def PGDupTableErrorCode : String := "42P07"

/-- `PGDuplicateObjectErrorCode` (store.go:44). -/
def PGDuplicateObjectErrorCode : String := "42710"

/-- `IsDuplicate`: true exactly when the root cause is a `*pq.Error` whose
code equals `PGDupTableErrorCode`. -/
def IsDuplicate (err : GoError) : Bool :=
  match err.causePqCode with
  | some code => code == PGDupTableErrorCode
  | none => false

/-! ### Claim theorems -/

/-- In a list where every handle is offline, every indexed slot is offline. -/
theorem getD_offline_of_all_offline {slots : List Handle}
    (h : ∀ x ∈ slots, x.online = false) {i : Nat} (hi : i < slots.length) :
    (slots.getD i offlineHandle).online = false := by
  rw [List.getD_eq_getElem slots offlineHandle hi]
  exact h _ (List.getElem_mem hi)

/-- A successful probe over `slots.length` iterations lands in bounds. -/
theorem probeLoop_some_lt (slots : List Handle) (counter idx c : Nat)
    (heq : probeLoop slots counter slots.length = some (idx, c)) :
    idx < slots.length := by
  have hs := probeLoop_some slots slots.length counter idx c heq
  have hlen : 0 < slots.length := by
    rcases Nat.eq_zero_or_pos slots.length with h0 | h0
    · rw [h0] at heq; simp [probeLoop] at heq
    · exact h0
  rw [hs.2.1]
  exact Nat.mod_lt _ hlen

/-- C1: `GetReplica` returns the master when the configured replica list is
empty, or the store is locked to master, or no license is installed;
otherwise it probes at most `slotCount` slots, each probe incrementing the
shared rotation counter, and any replica it returns is an in-bounds slot
whose current handle is online — an offline slot is never returned — and
when every slot is offline it returns the master. -/
theorem getReplica_selection (st : SqlStore)
    (hinv : st.replicaXs.length = st.settings.dataSourceReplicas.length) :
    ((st.settings.dataSourceReplicas.isEmpty || st.lockedToMaster ||
        !(hasLicense st)) = true → (GetReplica st).1 = Conn.master)
    ∧ (∀ idx, (GetReplica st).1 = Conn.readReplica idx →
        idx < st.replicaXs.length ∧
        (st.replicaXs.getD idx offlineHandle).online = true)
    ∧ ((∀ x ∈ st.replicaXs, x.online = false) → (GetReplica st).1 = Conn.master)
    ∧ (GetReplica st).2.rrCounter ≤ st.rrCounter + st.replicaXs.length := by
  refine ⟨fun hg => by simp [GetReplica, hg], ?_, ?_, ?_⟩
  · intro idx h
    by_cases hg : (st.settings.dataSourceReplicas.isEmpty || st.lockedToMaster ||
        !(hasLicense st)) = true
    · simp [GetReplica, hg] at h
    · cases heq : probeLoop st.replicaXs st.rrCounter st.replicaXs.length with
      | none => simp [GetReplica, hg, heq] at h
      | some p =>
        obtain ⟨pi, pc⟩ := p
        have hpi : pi = idx := by simp [GetReplica, hg, heq] at h; exact h
        subst hpi
        exact ⟨probeLoop_some_lt st.replicaXs st.rrCounter pi pc heq,
          (probeLoop_some st.replicaXs st.replicaXs.length st.rrCounter pi pc heq).1⟩
  · intro hoff
    by_cases hg : (st.settings.dataSourceReplicas.isEmpty || st.lockedToMaster ||
        !(hasLicense st)) = true
    · simp [GetReplica, hg]
    · cases heq : probeLoop st.replicaXs st.rrCounter st.replicaXs.length with
      | none => simp [GetReplica, hg, heq]
      | some p =>
        obtain ⟨pi, pc⟩ := p
        exfalso
        have hon := (probeLoop_some st.replicaXs st.replicaXs.length st.rrCounter pi pc heq).1
        have hlt := probeLoop_some_lt st.replicaXs st.rrCounter pi pc heq
        have hf := getD_offline_of_all_offline hoff hlt
        rw [hon] at hf
        exact Bool.true_eq_false ▸ hf
  · by_cases hg : (st.settings.dataSourceReplicas.isEmpty || st.lockedToMaster ||
        !(hasLicense st)) = true
    · simp [GetReplica, hg]
    · cases heq : probeLoop st.replicaXs st.rrCounter st.replicaXs.length with
      | none => simp [GetReplica, hg, heq]
      | some p =>
        obtain ⟨pi, pc⟩ := p
        have hs := probeLoop_some st.replicaXs st.replicaXs.length st.rrCounter pi pc heq
        simp only [GetReplica, hg, heq, if_neg]
        simp
        omega

/-- A licensed, unlocked store with two configured read replicas, slot 0
offline and slot 1 online. -/
def c1State : SqlStore :=
  { rrCounter := 0
    srCounter := 0
    settings := { dataSourceReplicas := ["r0", "r1"]
                  dataSourceSearchReplicas := []
                  replicaLagSettings := [] }
    replicaXs := [{ id := 1, online := false }, { id := 2, online := true }]
    searchReplicaXs := []
    replicaLagHandles := []
    lockedToMaster := false
    license := some () }

/-- Witness for C1: on `c1State` the call returns slot 1, which is indeed in
bounds and online. -/
theorem getReplica_selection_witness :
    1 < c1State.replicaXs.length ∧
    (c1State.replicaXs.getD 1 offlineHandle).online = true :=
  (getReplica_selection c1State (by decide)).2.1 1 (by decide)

/-- C2: the `Close` trace closes the master first, then signals the monitor
to stop, then blocks until the monitor has exited; every replica,
search-replica and lag-probe handle close comes strictly after the monitor
has terminated, and each online read replica, each online search replica
and each lag-probe handle is closed. -/
theorem close_monitor_before_handles (st : SqlStore) :
    (closeTrace st).get? 0 = some CloseEvent.closeMaster
    ∧ (closeTrace st).get? 1 = some CloseEvent.signalMonitorStop
    ∧ (closeTrace st).get? 2 = some CloseEvent.monitorExited
    ∧ (∀ j e, (closeTrace st).get? j = some e → isHandleClose e = true → 2 < j)
    ∧ (∀ i ∈ onlineIndices st.replicaXs,
        CloseEvent.closeReadReplica i ∈ closeTrace st)
    ∧ (∀ i ∈ onlineIndices st.searchReplicaXs,
        CloseEvent.closeSearchReplica i ∈ closeTrace st)
    ∧ (∀ i, i < st.replicaLagHandles.length →
        CloseEvent.closeLagHandle i ∈ closeTrace st) := by
  have hshape : closeTrace st = CloseEvent.closeMaster ::
      CloseEvent.signalMonitorStop :: CloseEvent.monitorExited ::
      ((onlineIndices st.replicaXs).map CloseEvent.closeReadReplica
        ++ ((onlineIndices st.searchReplicaXs).map CloseEvent.closeSearchReplica
          ++ (List.range st.replicaLagHandles.length).map
              CloseEvent.closeLagHandle)) := rfl
  refine ⟨rfl, rfl, rfl, ?_, ?_, ?_, ?_⟩
  · intro j e hj hc
    rcases j with _ | _ | _ | j
    · rw [hshape] at hj
      simp only [List.get?] at hj
      cases hj
      simp [isHandleClose] at hc
    · rw [hshape] at hj
      simp only [List.get?] at hj
      cases hj
      simp [isHandleClose] at hc
    · rw [hshape] at hj
      simp only [List.get?] at hj
      cases hj
      simp [isHandleClose] at hc
    · omega
  · intro i hi
    rw [hshape]
    exact List.mem_cons_of_mem _ (List.mem_cons_of_mem _ (List.mem_cons_of_mem _
      (List.mem_append_left _ (List.mem_map_of_mem _ hi))))
  · intro i hi
    rw [hshape]
    exact List.mem_cons_of_mem _ (List.mem_cons_of_mem _ (List.mem_cons_of_mem _
      (List.mem_append_right _
        (List.mem_append_left _ (List.mem_map_of_mem _ hi)))))
  · intro i hi
    rw [hshape]
    exact List.mem_cons_of_mem _ (List.mem_cons_of_mem _ (List.mem_cons_of_mem _
      (List.mem_append_right _ (List.mem_append_right _
        (List.mem_map_of_mem _ (List.mem_range.mpr hi))))))

/-- A store with one online read replica, one offline search replica and one
lag-probe handle. -/
def c2State : SqlStore :=
  { rrCounter := 0
    srCounter := 0
    settings := { dataSourceReplicas := ["r0"]
                  dataSourceSearchReplicas := ["s0"]
                  replicaLagSettings := [{ dataSource := some "l0"
                                           queryAbsoluteLag := some "qa"
                                           queryTimeLag := some "qt" }] }
    replicaXs := [{ id := 1, online := true }]
    searchReplicaXs := [{ id := 2, online := false }]
    replicaLagHandles := [{ run := fun _ => Except.ok ("n", 0) }]
    lockedToMaster := false
    license := some () }

/-- Witness for C2: on `c2State` the read-replica close sits at index 3 of
the trace, strictly after the monitor-exit event at index 2. -/
theorem close_monitor_before_handles_witness :
    (closeTrace c2State).get? 2 = some CloseEvent.monitorExited ∧ 2 < 3 :=
  ⟨(close_monitor_before_handles c2State).2.2.1,
    (close_monitor_before_handles c2State).2.2.2.1 3
      (CloseEvent.closeReadReplica 0) (by rfl) (by rfl)⟩

/-- C3: on a monitor tick, an online slot is left completely unchanged (no
reconnect attempt); an offline slot gets exactly one reconnect attempt —
on failure it still holds its previous handle, on success the new wrapped
handle (online) is stored and its metrics collector registered when metrics
are enabled; each slot's outcome depends only on that slot and its own dial
result, so one slot's failure never affects the others; and the loop
continues after every tick, exiting only on the stop signal. -/
theorem monitor_tick_spec :
    (∀ me slot dial, slot.online = true →
        setupReplica me slot dial =
          { slot := slot, attempted := false, registered := false })
    ∧ (∀ me slot dial, slot.online = false →
        (setupReplica me slot dial).attempted = true)
    ∧ (∀ me slot, slot.online = false →
        setupReplica me slot none =
          { slot := slot, attempted := true, registered := false })
    ∧ (∀ me slot h, slot.online = false →
        setupReplica me slot (some h) =
          { slot := newSqlxDBWrapper h, attempted := true, registered := me }
        ∧ (newSqlxDBWrapper h).online = true)
    ∧ (∀ me slots dial j, (monitorTickSlots me slots dial)[j]? =
        (slots[j]?).map fun s => (setupReplica me s (dial j)).slot)
    ∧ (∀ st me dials, monitorStep st (MonitorSignal.tick me dials) =
        (monitorTick me dials st, true))
    ∧ (∀ st, monitorStep st MonitorSignal.quit = (st, false)) := by
  refine ⟨?_, ?_, ?_, ?_, ?_, fun _ _ _ => rfl, fun _ => rfl⟩
  · intro me slot dial hon
    simp [setupReplica, hon]
  · intro me slot dial hoff
    cases dial <;> simp [setupReplica, setDB, hoff]
  · intro me slot hoff
    simp [setupReplica, hoff]
  · intro me slot h hoff
    exact ⟨by simp [setupReplica, setDB, hoff], rfl⟩
  · intro me slots dial j
    rw [monitorTickSlots, List.getElem?_mapIdx]

/-- Witness for C3, with metrics enabled: an online slot is untouched with
no attempt; an offline slot with a failed dial keeps its handle; an offline
slot with a successful dial stores the new online handle and registers its
metrics. -/
theorem monitor_tick_spec_witness :
    setupReplica true { id := 7, online := true } none =
      { slot := { id := 7, online := true }, attempted := false, registered := false }
    ∧ setupReplica true { id := 7, online := false } none =
      { slot := { id := 7, online := false }, attempted := true, registered := false }
    ∧ setupReplica true { id := 7, online := false } (some { id := 9, online := false }) =
      { slot := { id := 9, online := true }, attempted := true, registered := true } :=
  ⟨monitor_tick_spec.1 true { id := 7, online := true } none rfl,
    monitor_tick_spec.2.2.1 true { id := 7, online := false } rfl,
    (monitor_tick_spec.2.2.2.1 true { id := 7, online := false }
      { id := 9, online := false } rfl).1⟩

/-- A licensed store locked to master, with one configured and online
search-replica slot (and one online read replica). -/
def c4State : SqlStore :=
  { rrCounter := 0
    srCounter := 0
    settings := { dataSourceReplicas := ["r0"]
                  dataSourceSearchReplicas := ["s0"]
                  replicaLagSettings := [] }
    replicaXs := [{ id := 1, online := true }]
    searchReplicaXs := [{ id := 3, online := true }]
    lockedToMaster := true
    replicaLagHandles := []
    license := some () }

/-- Counterexample to C4: with a license installed, `lockedToMaster = true`
and an online configured search replica, `GetSearchReplicaX` returns that
search replica, not the master — the function never consults
`lockedToMaster`. -/
theorem getSearchReplica_locked_cex :
    hasLicense c4State = true ∧ c4State.lockedToMaster = true ∧
    (c4State.searchReplicaXs.getD 0 offlineHandle).online = true ∧
    (GetSearchReplicaX c4State).1 = Conn.searchReplica 0 ∧
    (GetSearchReplicaX c4State).1 ≠ Conn.master := by
  refine ⟨rfl, rfl, rfl, by decide, by decide⟩

/-- C4 (amended): locking to master does not force search reads to the
primary — `GetSearchReplicaX` applies the selection algorithm to the search
ReplicaSet without the locked-to-master check, so whenever a license is
installed, the store is locked to master, and some configured search slot is
online, it returns an online search replica; the lock reaches search
selection only through the delegation to `GetReplica` when the search list
is empty or all search slots are offline. -/
theorem getSearchReplica_ignores_lock (st : SqlStore)
    (hlic : hasLicense st = true)
    (hlock : st.lockedToMaster = true)
    (hne : st.settings.dataSourceSearchReplicas.isEmpty = false)
    (honl : ∃ i, i < st.searchReplicaXs.length ∧
        (st.searchReplicaXs.getD i offlineHandle).online = true) :
    ∃ j, (GetSearchReplicaX st).1 = Conn.searchReplica j ∧
      (st.searchReplicaXs.getD j offlineHandle).online = true := by
  have hfind := probeLoop_finds_online st.searchReplicaXs st.srCounter honl
  cases heq : probeLoop st.searchReplicaXs st.srCounter st.searchReplicaXs.length with
  | none => exact absurd heq hfind
  | some p =>
    obtain ⟨pi, pc⟩ := p
    exact ⟨pi, by simp [GetSearchReplicaX, hlic, hne, heq],
      (probeLoop_some st.searchReplicaXs st.searchReplicaXs.length
        st.srCounter pi pc heq).1⟩

/-- Witness for the amended C4, on `c4State`. -/
theorem getSearchReplica_ignores_lock_witness :
    ∃ j, (GetSearchReplicaX c4State).1 = Conn.searchReplica j ∧
      (c4State.searchReplicaXs.getD j offlineHandle).online = true :=
  getSearchReplica_ignores_lock c4State (by decide) (by decide) (by decide)
    ⟨0, by decide, by decide⟩

/-- A licensed store locked to master, with no configured search replicas
and one configured, online read replica. -/
def c7State : SqlStore :=
  { rrCounter := 0
    srCounter := 0
    settings := { dataSourceReplicas := ["r0"]
                  dataSourceSearchReplicas := []
                  replicaLagSettings := [] }
    replicaXs := [{ id := 1, online := true }]
    searchReplicaXs := []
    lockedToMaster := true
    replicaLagHandles := []
    license := some () }

/-- Counterexample to C7: with a license, zero search replicas and an online
read replica, `GetSearchReplicaX` can still return the master —
`lockedToMaster = true` makes the delegated `GetReplica` call return the
master even though an online read replica exists. -/
theorem getSearchReplica_delegation_cex :
    hasLicense c7State = true ∧
    c7State.settings.dataSourceSearchReplicas.isEmpty = true ∧
    (c7State.replicaXs.getD 0 offlineHandle).online = true ∧
    (GetSearchReplicaX c7State).1 = Conn.master := by
  refine ⟨rfl, rfl, rfl, by decide⟩

/-- C7 (amended): with a license installed, no configured search replicas,
the store not locked to master, and at least one configured read-replica
slot online, `GetSearchReplicaX` delegates to `GetReplica` and returns one
of the online read replicas, not the master. -/
theorem getSearchReplica_delegates_to_replica (st : SqlStore)
    (hlic : hasLicense st = true)
    (hse : st.settings.dataSourceSearchReplicas.isEmpty = true)
    (hlock : st.lockedToMaster = false)
    (hre : st.settings.dataSourceReplicas.isEmpty = false)
    (honl : ∃ i, i < st.replicaXs.length ∧
        (st.replicaXs.getD i offlineHandle).online = true) :
    GetSearchReplicaX st = GetReplica st ∧
    ∃ j, (GetReplica st).1 = Conn.readReplica j ∧
      (st.replicaXs.getD j offlineHandle).online = true := by
  refine ⟨by simp [GetSearchReplicaX, hlic, hse], ?_⟩
  have hfind := probeLoop_finds_online st.replicaXs st.rrCounter honl
  cases heq : probeLoop st.replicaXs st.rrCounter st.replicaXs.length with
  | none => exact absurd heq hfind
  | some p =>
    obtain ⟨pi, pc⟩ := p
    exact ⟨pi, by simp [GetReplica, hre, hlock, hlic, heq],
      (probeLoop_some st.replicaXs st.replicaXs.length st.rrCounter pi pc heq).1⟩

/-- `c7State` with the master lock released. -/
def c7UnlockedState : SqlStore := { c7State with lockedToMaster := false }

/-- Witness for the amended C7, on `c7UnlockedState`. -/
theorem getSearchReplica_delegates_to_replica_witness :
    GetSearchReplicaX c7UnlockedState = GetReplica c7UnlockedState ∧
    ∃ j, (GetReplica c7UnlockedState).1 = Conn.readReplica j ∧
      (c7UnlockedState.replicaXs.getD j offlineHandle).online = true :=
  getSearchReplica_delegates_to_replica c7UnlockedState (by decide) (by decide)
    (by decide) (by decide) ⟨0, by decide, by decide⟩

/-- Every index the lag loop probes lies at or after the start index. -/
theorem replicaLagLoop_probed_ge (queryOf : ReplicaLagSetting → Option String)
    (handles : List LagHandle) :
    ∀ items s j, j ∈ (replicaLagLoop queryOf handles items s).1 → s ≤ j := by
  intro items
  induction items with
  | nil => intro s j hj; simp [replicaLagLoop] at hj
  | cons item rest ih =>
    intro s j hj
    simp only [replicaLagLoop] at hj
    cases hq : queryOf item with
    | none =>
      simp only [hq] at hj
      exact Nat.le_of_succ_le (ih (s + 1) j hj)
    | some q =>
      by_cases hq0 : q = ""
      · simp only [hq, if_pos hq0] at hj
        exact Nat.le_of_succ_le (ih (s + 1) j hj)
      · simp only [hq, if_neg hq0] at hj
        cases hh : handles.get? s with
        | none => simp only [hh] at hj; simp at hj
        | some hd =>
          simp only [hh] at hj
          cases hr : hd.run q with
          | error e => simp only [hr] at hj; simp at hj; omega
          | ok v =>
            simp only [hr] at hj
            rcases List.mem_cons.mp hj with rfl | hj2
            · exact Nat.le_refl _
            · exact Nat.le_of_succ_le (ih (s + 1) j hj2)

/-- When the lag loop ends with a query error at target `i`, target `i` was
probed and no target after `i` was: the loop short-circuits. -/
theorem replicaLagLoop_err_stops (queryOf : ReplicaLagSetting → Option String)
    (handles : List LagHandle) :
    ∀ items s i e,
      (replicaLagLoop queryOf handles items s).2 = some (LagErr.queryErr i e) →
      i ∈ (replicaLagLoop queryOf handles items s).1 ∧
      ∀ j ∈ (replicaLagLoop queryOf handles items s).1, j ≤ i := by
  intro items
  induction items with
  | nil => intro s i e h; simp [replicaLagLoop] at h
  | cons item rest ih =>
    intro s i e h
    simp only [replicaLagLoop] at h ⊢
    cases hq : queryOf item with
    | none =>
      simp only [hq] at h ⊢
      exact ih (s + 1) i e h
    | some q =>
      by_cases hq0 : q = ""
      · simp only [hq, if_pos hq0] at h ⊢
        exact ih (s + 1) i e h
      · simp only [hq, if_neg hq0] at h ⊢
        cases hh : handles.get? s with
        | none => simp only [hh] at h; simp at h
        | some hd =>
          simp only [hh] at h ⊢
          cases hr : hd.run q with
          | error e2 =>
            simp only [hr] at h ⊢
            simp at h
            obtain ⟨hi, he⟩ := h
            subst hi
            simp
          | ok v =>
            simp only [hr] at h ⊢
            obtain ⟨h1, h2⟩ := ih (s + 1) i e h
            refine ⟨List.mem_cons_of_mem _ h1, ?_⟩
            intro j hj
            rcases List.mem_cons.mp hj with rfl | hj2
            · have := replicaLagLoop_probed_ge queryOf handles rest (j + 1) i h1
              omega
            · exact h2 j hj2

/-- When the lag loop runs to completion, every target with a non-nil,
non-empty query text was probed. -/
theorem replicaLagLoop_complete (queryOf : ReplicaLagSetting → Option String)
    (handles : List LagHandle) :
    ∀ items s, (replicaLagLoop queryOf handles items s).2 = none →
      ∀ k it q, items.get? k = some it → queryOf it = some q → q ≠ "" →
        s + k ∈ (replicaLagLoop queryOf handles items s).1 := by
  intro items
  induction items with
  | nil => intro s _ k it q hk; simp at hk
  | cons item rest ih =>
    intro s h k it q hk hq hq0
    simp only [replicaLagLoop] at h ⊢
    cases k with
    | zero =>
      rw [List.get?_cons_zero] at hk
      cases hk
      simp only [hq, if_neg hq0] at h ⊢
      cases hh : handles.get? s with
      | none => simp only [hh] at h; simp at h
      | some hd =>
        simp only [hh] at h ⊢
        cases hr : hd.run q with
        | error e => simp only [hr] at h; simp at h
        | ok v => simp only [hr]; simp
    | succ c =>
      rw [List.get?_cons_succ] at hk
      cases hqi : queryOf item with
      | none =>
        simp only [hqi] at h ⊢
        have := ih (s + 1) h c it q hk hq hq0
        have harith : s + (c + 1) = s + 1 + c := by omega
        rwa [harith]
      | some qi =>
        by_cases hqi0 : qi = ""
        · simp only [hqi, if_pos hqi0] at h ⊢
          have := ih (s + 1) h c it q hk hq hq0
          have harith : s + (c + 1) = s + 1 + c := by omega
          rwa [harith]
        · simp only [hqi, if_neg hqi0] at h ⊢
          cases hh : handles.get? s with
          | none => simp only [hh] at h; simp at h
          | some hd =>
            simp only [hh] at h ⊢
            cases hr : hd.run qi with
            | error e => simp only [hr] at h; simp at h
            | ok v =>
              simp only [hr] at h ⊢
              have := ih (s + 1) h c it q hk hq hq0
              have harith : s + (c + 1) = s + 1 + c := by omega
              rw [harith]
              exact List.mem_cons_of_mem _ this

/-- A lag-probe handle whose every query fails. -/
def failingLagHandle : LagHandle := { run := fun _ => Except.error "boom" }

/-- A lag-probe handle whose every query returns one (node, lag) row. -/
def okLagHandle : LagHandle := { run := fun _ => Except.ok ("node", 0) }

/-- Two configured lag targets, both with non-empty query texts; the first
target's handle errors and the second's would succeed. -/
def c5State : SqlStore :=
  { rrCounter := 0
    srCounter := 0
    settings := { dataSourceReplicas := []
                  dataSourceSearchReplicas := []
                  replicaLagSettings :=
                    [{ dataSource := some "a"
                       queryAbsoluteLag := some "q1"
                       queryTimeLag := some "t1" },
                     { dataSource := some "b"
                       queryAbsoluteLag := some "q2"
                       queryTimeLag := some "t2" }] }
    replicaXs := []
    searchReplicaXs := []
    replicaLagHandles := [failingLagHandle, okLagHandle]
    lockedToMaster := false
    license := none }

/-- Counterexample to C5: on `c5State` the first target's query errors and
`ReplicaLagAbs` returns at once — target 1 has a non-empty query text yet is
never probed, and likewise for `ReplicaLagTime`; errors short-circuit the
loop instead of being aggregated. -/
theorem replicaLag_shortcircuit_cex :
    (ReplicaLagAbs c5State).1 = [0]
    ∧ (ReplicaLagAbs c5State).2 = some (LagErr.queryErr 0 "boom")
    ∧ (c5State.settings.replicaLagSettings.getD 1
        { dataSource := none, queryAbsoluteLag := none,
          queryTimeLag := none }).queryAbsoluteLag = some "q2"
    ∧ 1 ∉ (ReplicaLagAbs c5State).1
    ∧ (ReplicaLagTime c5State).1 = [0]
    ∧ 1 ∉ (ReplicaLagTime c5State).1 := by
  refine ⟨by decide, by decide, by decide, by decide, by decide, by decide⟩

/-- C5 (amended): `ReplicaLagAbs` and `ReplicaLagTime` short-circuit on the
first query error: the erroring target is the last one probed (no target
after it is attempted) and the error is returned for that target; only when
no query errors does the pass probe every configured target with a non-nil,
non-empty query text. -/
theorem replicaLag_err_shortcircuit (st : SqlStore) :
    (∀ i e, (ReplicaLagAbs st).2 = some (LagErr.queryErr i e) →
        i ∈ (ReplicaLagAbs st).1 ∧ ∀ j ∈ (ReplicaLagAbs st).1, j ≤ i)
    ∧ ((ReplicaLagAbs st).2 = none →
        ∀ k it q, st.settings.replicaLagSettings.get? k = some it →
          it.queryAbsoluteLag = some q → q ≠ "" → k ∈ (ReplicaLagAbs st).1)
    ∧ (∀ i e, (ReplicaLagTime st).2 = some (LagErr.queryErr i e) →
        i ∈ (ReplicaLagTime st).1 ∧ ∀ j ∈ (ReplicaLagTime st).1, j ≤ i)
    ∧ ((ReplicaLagTime st).2 = none →
        ∀ k it q, st.settings.replicaLagSettings.get? k = some it →
          it.queryTimeLag = some q → q ≠ "" → k ∈ (ReplicaLagTime st).1) := by
  refine ⟨?_, ?_, ?_, ?_⟩
  · intro i e h
    exact replicaLagLoop_err_stops ReplicaLagSetting.queryAbsoluteLag
      st.replicaLagHandles st.settings.replicaLagSettings 0 i e h
  · intro h k it q hk hq hq0
    have := replicaLagLoop_complete ReplicaLagSetting.queryAbsoluteLag
      st.replicaLagHandles st.settings.replicaLagSettings 0 h k it q hk hq hq0
    rwa [Nat.zero_add] at this
  · intro i e h
    exact replicaLagLoop_err_stops ReplicaLagSetting.queryTimeLag
      st.replicaLagHandles st.settings.replicaLagSettings 0 i e h
  · intro h k it q hk hq hq0
    have := replicaLagLoop_complete ReplicaLagSetting.queryTimeLag
      st.replicaLagHandles st.settings.replicaLagSettings 0 h k it q hk hq hq0
    rwa [Nat.zero_add] at this

/-- Witness for the amended C5, on `c5State`: the erroring target 0 was
probed and nothing after it. -/
theorem replicaLag_err_shortcircuit_witness :
    0 ∈ (ReplicaLagAbs c5State).1 ∧ ∀ j ∈ (ReplicaLagAbs c5State).1, j ≤ 0 :=
  (replicaLag_err_shortcircuit c5State).1 0 "boom" (by decide)

/-- C6: for the postgres driver, a parsed version at or above 130000 passes
the gate; a parsed version below 130000 fails with a message containing both
the actual and the required versions rendered as `major.minor` with
`major = v div 10000` and `minor = v mod 10000`; an unparseable version
string also fails. -/
theorem ensureMinimumDBVersion_spec (ver : String) :
    (∀ v, atoi ver = some v → 130000 ≤ v →
        ensureMinimumDBVersion DatabaseDriverPostgres ver = (true, none))
    ∧ (∀ v, atoi ver = some v → v < 130000 →
        ∃ msg, ensureMinimumDBVersion DatabaseDriverPostgres ver = (false, some msg)
          ∧ SubstrOf (versionString v) msg
          ∧ SubstrOf (versionString minimumRequiredPostgresVersion) msg
          ∧ versionString v =
              toString (v.tdiv 10000) ++ "." ++ toString (v.tmod 10000))
    ∧ (atoi ver = none →
        (ensureMinimumDBVersion DatabaseDriverPostgres ver).1 = false) := by
  refine ⟨?_, ?_, ?_⟩
  · intro v hv hge
    have hnlt : ¬ (v < minimumRequiredPostgresVersion) := by
      simp only [minimumRequiredPostgresVersion]; omega
    simp [ensureMinimumDBVersion, hv, hnlt]
  · intro v hv hlt
    have hlt2 : v < minimumRequiredPostgresVersion := by
      simp only [minimumRequiredPostgresVersion]; omega
    refine ⟨"minimum Postgres version requirements not met. Found: " ++
      versionString v ++ ", Wanted: " ++
      versionString minimumRequiredPostgresVersion, ?_, ?_, ?_, rfl⟩
    · simp [ensureMinimumDBVersion, hv, hlt2]
    · refine ⟨("minimum Postgres version requirements not met. Found: "
        : String).data, (", Wanted: " : String).data ++
        (versionString minimumRequiredPostgresVersion).data, ?_⟩
      simp [String.data_append, List.append_assoc]
    · refine ⟨("minimum Postgres version requirements not met. Found: "
        : String).data ++ (versionString v).data ++
        (", Wanted: " : String).data, [], ?_⟩
      simp [String.data_append, List.append_assoc]
  · intro h
    simp [ensureMinimumDBVersion, h]

/-- Witness for C6: version "120000" fails with a message containing "12.0"
and "13.0"; "130000" and "130001" pass; "13.2" does not parse and fails. -/
theorem ensureMinimumDBVersion_spec_witness :
    (∃ msg, ensureMinimumDBVersion DatabaseDriverPostgres "120000" =
        (false, some msg)
      ∧ SubstrOf (versionString 120000) msg
      ∧ SubstrOf (versionString minimumRequiredPostgresVersion) msg
      ∧ versionString 120000 =
          toString ((120000 : Int).tdiv 10000) ++ "." ++
          toString ((120000 : Int).tmod 10000))
    ∧ versionString 120000 = "12.0"
    ∧ versionString minimumRequiredPostgresVersion = "13.0"
    ∧ ensureMinimumDBVersion DatabaseDriverPostgres "130000" = (true, none)
    ∧ ensureMinimumDBVersion DatabaseDriverPostgres "130001" = (true, none)
    ∧ (ensureMinimumDBVersion DatabaseDriverPostgres "13.2").1 = false :=
  ⟨(ensureMinimumDBVersion_spec "120000").2.1 120000 (by decide) (by decide),
    by decide, by decide,
    (ensureMinimumDBVersion_spec "130000").1 130000 (by decide) (by decide),
    (ensureMinimumDBVersion_spec "130001").1 130001 (by decide) (by decide),
    (ensureMinimumDBVersion_spec "13.2").2.2 (by decide)⟩

/-- Counterexample to C8: an error whose root cause is a Postgres error with
the duplicate-object code 42710 is NOT classified as a benign duplicate —
`IsDuplicate` compares only against the duplicate-table code 42P07. -/
theorem isDuplicate_object_code_cex :
    IsDuplicate { causePqCode := some PGDuplicateObjectErrorCode } = false := by
  decide

/-- C8 (amended): `IsDuplicate` returns true exactly when the error's root
cause is a Postgres error with the duplicate-table code 42P07; every other
error — including one with the duplicate-object code 42710 — yields false. -/
theorem isDuplicate_table_code_only (e : GoError) :
    IsDuplicate e = true ↔ e.causePqCode = some PGDupTableErrorCode := by
  obtain ⟨c⟩ := e
  cases c with
  | none => simp [IsDuplicate]
  | some code => simp [IsDuplicate]

/-- C9: the state `New` has built when it calls `GetDbVersion` — the store
literal with no license, run through `initConnection` — still has a nil
license, so the `GetReplica` call inside `GetDbVersion` returns the master
and the version check consults the primary, whatever the dial outcomes and
the configured replicas were. -/
theorem newStore_getDbVersion_master (settings : SqlSettings)
    (dials : DialOutcomes) :
    hasLicense (initConnection (newStore settings) dials) = false
    ∧ GetDbVersionConn (initConnection (newStore settings) dials) =
        Conn.master := by
  refine ⟨rfl, ?_⟩
  simp [GetDbVersionConn, GetReplica, hasLicense, initConnection, newStore]

/-- One configured lag target with a nil data source but non-empty query
texts. -/
def c10Settings : SqlSettings :=
  { dataSourceReplicas := []
    dataSourceSearchReplicas := []
    replicaLagSettings := [{ dataSource := none
                             queryAbsoluteLag := some "q"
                             queryTimeLag := some "t" }] }

/-- Dial outcomes where every lag dial would succeed (the skip comes from
the nil data source alone). -/
def c10Dials : DialOutcomes :=
  { dialReplica := fun _ => none
    dialSearchReplica := fun _ => none
    dialLag := fun _ => some okLagHandle }

/-- The store state `initConnection` produces from `c10Settings`. -/
def c10State : SqlStore := initConnection (newStore c10Settings) c10Dials

/-- C10 evaluated at the failing input: `initConnection` appends no handle
for the nil-data-source target, so `replicaLagHandles` is empty while
`ReplicaLagSettings` still has one entry with a non-empty query; both
`ReplicaLagAbs` and `ReplicaLagTime` then index `replicaLagHandles[0]`,
which is out of bounds — a Go runtime panic, contradicting the claimed
bounds safety. -/
theorem replicaLag_out_of_bounds :
    c10State.replicaLagHandles.length = 0
    ∧ c10State.settings.replicaLagSettings.length = 1
    ∧ (ReplicaLagAbs c10State).2 = some (LagErr.outOfRange 0)
    ∧ (ReplicaLagTime c10State).2 = some (LagErr.outOfRange 0) := by
  refine ⟨by decide, by decide, by decide, by decide⟩

/-- Witness for the amended C8: the duplicate-table code 42P07 is accepted. -/
theorem isDuplicate_table_code_only_witness :
    IsDuplicate { causePqCode := some PGDupTableErrorCode } = true :=
  (isDuplicate_table_code_only { causePqCode := some PGDupTableErrorCode }).mpr rfl

/-- A startup configuration with one read replica. -/
def c9Settings : SqlSettings :=
  { dataSourceReplicas := ["r0"]
    dataSourceSearchReplicas := []
    replicaLagSettings := [] }

/-- Dial outcomes where every dial succeeds. -/
def c9Dials : DialOutcomes :=
  { dialReplica := fun i => some { id := i + 10, online := false }
    dialSearchReplica := fun i => some { id := i + 20, online := false }
    dialLag := fun _ => some okLagHandle }

/-- Witness for C9, at a concrete configuration. -/
theorem newStore_getDbVersion_master_witness :
    hasLicense (initConnection (newStore c9Settings) c9Dials) = false
    ∧ GetDbVersionConn (initConnection (newStore c9Settings) c9Dials) =
        Conn.master :=
  newStore_getDbVersion_master c9Settings c9Dials

end Sqlstore
